import Mathlib

/-!
Verification of the tool layer of the RAG chatbot (backend/search_tools.py).

The tool layer consumes a vector store (backend/vector_store.py, whose
source is not part of this development; its data carriers and query
surface are modelled from the specification).  Everything under the
namespaces CourseSearchTool, CourseOutlineTool and ToolManager below is a
direct shallow embedding of backend/search_tools.py.

Python truthiness is modelled explicitly: a string-valued option is truthy
iff it is some non-empty string, an integer-valued option is truthy iff it
is some non-zero integer, and a list is truthy iff it is non-empty.
-/

/-- Truthiness of an optional string in Python: `None` and the empty
string are falsy, every other string is truthy. -/
def pyTruthyStr : Option String → Bool
  | some s => s != ""
  | none => false

/-- Truthiness of an optional integer in Python: `None` and `0` are
falsy, every other integer is truthy. -/
def pyTruthyInt : Option Int → Bool
  | some n => n != 0
  | none => false

/-- Modelled from the spec: metadata mapping attached to a retrieved
content chunk (spec section 3, "Content chunk").  The formatting code
reads the keys `course_title` and `lesson_number` via `dict.get`, so each
is an option (`none` covers both an absent key and an explicit `None`). -/
structure ChunkMeta where
  course_title : Option String
  lesson_number : Option Int
deriving DecidableEq, Repr

/-- Modelled from the spec: the `SearchResults` data carrier of
backend/vector_store.py (spec section 3, "ResultSet"): parallel lists of
documents, metadata and distances, plus an optional error string. -/
structure SearchResults where
  documents : List String
  metadata : List ChunkMeta
  distances : List Rat
  error : Option String
deriving DecidableEq, Repr

/-- Modelled from the spec: `SearchResults.is_empty` holds iff the
document list is empty, independently of the error field (spec
section 8). -/
def SearchResults.is_empty (r : SearchResults) : Bool :=
  r.documents.isEmpty

/-- A provenance record ("source") built at format time: a human readable
label and an optional URL. -/
structure Source where
  text : String
  url : Option String
deriving DecidableEq, Repr

/-- Modelled from the spec: a lesson entry of a course metadata mapping
(spec section 3, "Course metadata entry").  The outline formatter reads
every key via `dict.get`, so each field is an option. -/
structure LessonMeta where
  lesson_number : Option Int
  lesson_title : Option String
  lesson_link : Option String
deriving DecidableEq, Repr

/-- Modelled from the spec: a course metadata entry as returned by the
vector store catalog (spec section 3, "Course metadata entry"). -/
structure CourseMeta where
  title : Option String
  course_link : Option String
  instructor : Option String
  lessons : List LessonMeta
deriving DecidableEq, Repr

/-- Modelled from the spec: the query surface of the vector store that
the two tools consume (spec sections 4.1 and 4.2).  `search` is the
unified search interface returning a `SearchResults`; `get_lesson_link`
looks up a lesson URL by course title and lesson number;
`resolve_course_name` is the catalog resolver; `get_all_courses_metadata`
returns every course metadata entry.  All four are opaque to the tool
layer, so they are plain function fields. -/
structure VectorStore where
  search : String → Option String → Option Int → SearchResults
  get_lesson_link : String → Int → Option String
  resolve_course_name : String → Option String
  get_all_courses_metadata : List CourseMeta

/-- The loop body of `CourseSearchTool._format_results`: walking the
zipped (document, metadata) pairs, it accumulates the formatted blocks,
the provenance records, and — as an instrumentation of the effect — the
list of (course_title, lesson_number) arguments on which
`get_lesson_link` is consulted. -/
def formatEntriesAux (link : String → Int → Option String) :
    List (String × ChunkMeta) → List String × List Source × List (String × Int)
  | [] => ([], [], [])
  | (doc, meta) :: rest =>
    let course_title := meta.course_title.getD "unknown"
    let header := "[" ++ course_title ++
      (match meta.lesson_number with
        | some n => " - Lesson " ++ toString n
        | none => "") ++ "]"
    let source_text := course_title ++
      (match meta.lesson_number with
        | some n => " - Lesson " ++ toString n
        | none => "")
    let lesson_url : Option String :=
      match meta.lesson_number with
        | some n => link course_title n
        | none => none
    let calls : List (String × Int) :=
      match meta.lesson_number with
        | some n => [(course_title, n)]
        | none => []
    let r := formatEntriesAux link rest
    ((header ++ "\n" ++ doc) :: r.1, (⟨source_text, lesson_url⟩ : Source) :: r.2.1,
      calls ++ r.2.2)

/-- `CourseSearchTool._format_results`: formats the results and returns
(joined output, new last_sources, trace of get_lesson_link calls). -/
def CourseSearchTool.format_results (store : VectorStore) (results : SearchResults) :
    String × List Source × List (String × Int) :=
  let r := formatEntriesAux store.get_lesson_link (results.documents.zip results.metadata)
  (String.intercalate "\n\n" r.1, r.2.1, r.2.2)

/-- `CourseSearchTool.execute`: runs the store search and returns the
output string, the new value of the `last_sources` field (the prior value
`last_sources` when no formatting happens), and the trace of
`get_lesson_link` calls made during this invocation. -/
def CourseSearchTool.execute (store : VectorStore) (last_sources : List Source)
    (query : String) (course_name : Option String) (lesson_number : Option Int) :
    String × List Source × List (String × Int) :=
  let results := store.search query course_name lesson_number
  if pyTruthyStr results.error then
    (results.error.getD "", last_sources, [])
  else if results.is_empty then
    let filter_info :=
      (if pyTruthyStr course_name then
        " in course \x27" ++ course_name.getD "" ++ "\x27" else "") ++
      (if pyTruthyInt lesson_number then
        " in lesson " ++ toString (lesson_number.getD 0) else "")
    ("No relevant content found" ++ filter_info ++ ".", last_sources, [])
  else
    CourseSearchTool.format_results store results

/-- `CourseOutlineTool._format_course_outline`: renders a course metadata
entry into the outline text. -/
def CourseOutlineTool.format_course_outline (course_meta : CourseMeta) : String :=
  let parts0 := ["**Course:** " ++ course_meta.title.getD "Unknown Course"]
  let parts1 := parts0 ++
    (if pyTruthyStr course_meta.course_link then
      ["**Course Link:** " ++ course_meta.course_link.getD ""] else [])
  let parts2 := parts1 ++
    (if pyTruthyStr course_meta.instructor then
      ["**Instructor:** " ++ course_meta.instructor.getD ""] else [])
  let parts3 :=
    if course_meta.lessons.isEmpty then
      parts2 ++ ["\n**Course Outline:** No lessons available"]
    else
      (parts2 ++
        ["\n**Course Outline (" ++ toString course_meta.lessons.length ++ " lessons):**"]) ++
      course_meta.lessons.map (fun lesson =>
        let lesson_entry := "Lesson " ++
          (match lesson.lesson_number with
            | some n => toString n
            | none => "None") ++ ": " ++ lesson.lesson_title.getD "Untitled Lesson"
        if pyTruthyStr lesson.lesson_link then
          lesson_entry ++ " - " ++ lesson.lesson_link.getD ""
        else lesson_entry)
  String.intercalate "\n" parts3

/-- `CourseOutlineTool.execute`: resolves the course name through the
catalog resolver, looks up the metadata entry with the resolved title,
and renders the outline; each failure yields an error string. -/
def CourseOutlineTool.execute (store : VectorStore) (course_name : String) : String :=
  let resolved_course_title := store.resolve_course_name course_name
  if !(pyTruthyStr resolved_course_title) then
    "No course found matching \x27" ++ course_name ++ "\x27"
  else
    let t := resolved_course_title.getD ""
    match store.get_all_courses_metadata.find? (fun m => m.title == some t) with
    | none => "Course metadata not found for \x27" ++ t ++ "\x27"
    | some matching_course => CourseOutlineTool.format_course_outline matching_course

/-- A registered tool as the `ToolManager` sees it: the declared name of
its static descriptor (the only part of `get_tool_definition()` the
manager inspects), the `execute(**kwargs)` entry point over an abstract
argument type, and the optional `last_sources` attribute (`none` models a
tool without that attribute, matching the `hasattr` checks). -/
structure ToolM (α : Type) where
  def_name : Option String
  run : α → String
  last_sources : Option (List Source)

/-- The tool registry state: the `self.tools` dictionary, as an ordered
association list with unique keys (Python dict insertion order). -/
abbrev ToolManager (α : Type) := List (String × ToolM α)

/-- Lookup in the tools dictionary (first entry with the given key). -/
def ToolManager.lookup {α : Type} : ToolManager α → String → Option (ToolM α)
  | [], _ => none
  | p :: rest, k => if p.1 == k then some p.2 else ToolManager.lookup rest k

/-- Python dict assignment `self.tools[name] = tool`: replaces the entry
holding the key in place, or appends a new entry at the end. -/
def ToolManager.dictSet {α : Type} : ToolManager α → String → ToolM α → ToolManager α
  | [], k, v => [(k, v)]
  | p :: rest, k, v =>
    if p.1 == k then (k, v) :: rest else p :: ToolManager.dictSet rest k v

/-- `ToolManager.register_tool`: reads the declared name from the tool
descriptor; if it is falsy the `ValueError` is raised before any mutation
(returned as `some` message, with the dictionary unchanged), otherwise
the tool is stored under its name. -/
def ToolManager.register_tool {α : Type} (ts : ToolManager α) (tool : ToolM α) :
    ToolManager α × Option String :=
  let tool_name := tool.def_name
  if !(pyTruthyStr tool_name) then
    (ts, some "Tool must have a \x27name\x27 in its definition")
  else
    (ToolManager.dictSet ts (tool_name.getD "") tool, none)

/-- `ToolManager.execute_tool`: dispatches by name, or returns a
not-found message as plain text. -/
def ToolManager.execute_tool {α : Type} (ts : ToolManager α) (tool_name : String)
    (args : α) : String :=
  match ToolManager.lookup ts tool_name with
  | none => "Tool \x27" ++ tool_name ++ "\x27 not found"
  | some tool => tool.run args

/-- `ToolManager.get_last_sources`: scans the registered tools in order
and returns the first truthy (non-empty) `last_sources` list, else []. -/
def ToolManager.get_last_sources {α : Type} : ToolManager α → List Source
  | [] => []
  | p :: rest =>
    match p.2.last_sources with
    | some l => if l.isEmpty then ToolManager.get_last_sources rest else l
    | none => ToolManager.get_last_sources rest

/-- `ToolManager.reset_sources`: sets `last_sources` to [] on every tool
that has the attribute. -/
def ToolManager.reset_sources {α : Type} (ts : ToolManager α) : ToolManager α :=
  ts.map (fun p => (p.1,
    { p.2 with last_sources := p.2.last_sources.map (fun _ => ([] : List Source)) }))

/-- A store whose search always yields an empty, non-error result and
whose catalog is empty. -/
def emptyStore : VectorStore where
  search := fun _ _ _ => ⟨[], [], [], none⟩
  get_lesson_link := fun _ _ => none
  resolve_course_name := fun _ => none
  get_all_courses_metadata := []

/-- A store whose search always yields an error result. -/
def errStore : VectorStore :=
  { emptyStore with search := fun _ _ _ => ⟨[], [], [], some "Test search error"⟩ }

/-- A two-hit search result: the first hit carries a lesson number, the
second does not. -/
def sampleResults : SearchResults :=
  ⟨["Vector databases store embeddings", "ChromaDB is a popular vector database"],
   [⟨some "Advanced Retrieval for AI with Chroma", some 1⟩,
    ⟨some "Advanced Retrieval for AI with Chroma", none⟩],
   [1/10, 1/5], none⟩

/-- A store whose search always yields `sampleResults` and whose lesson
links are numbered example URLs. -/
def sampleStore : VectorStore :=
  { emptyStore with
    search := fun _ _ _ => sampleResults,
    get_lesson_link := fun _ n => some ("https://example.com/lesson" ++ toString n) }

/-- A sample course metadata entry: two lessons, the first with a link. -/
def sampleCourseMeta : CourseMeta :=
  ⟨some "Advanced Retrieval for AI with Chroma", some "https://example.com/course",
   some "John Doe",
   [⟨some 1, some "Introduction to Vectors", some "https://example.com/lesson1"⟩,
    ⟨some 2, some "Embedding Basics", none⟩]⟩

/-- A store resolving every fragment to the sample course title, with
that course in its catalog. -/
def outlineStore : VectorStore :=
  { emptyStore with
    resolve_course_name := fun _ => some "Advanced Retrieval for AI with Chroma",
    get_all_courses_metadata := [sampleCourseMeta] }

/-- A store resolving every fragment to a title that has no metadata
entry. -/
def ghostStore : VectorStore :=
  { emptyStore with resolve_course_name := fun _ => some "Ghost Course" }

/-- A registered tool fixture with a declared name and an empty
provenance list. -/
def namedTool : ToolM Unit := ⟨some "search_course_content", fun _ => "result A", some []⟩

/-- A second tool fixture declaring the same name as `namedTool`. -/
def namedTool2 : ToolM Unit := ⟨some "search_course_content", fun _ => "result B", none⟩

/-- A tool fixture whose descriptor lacks a name. -/
def namelessTool : ToolM Unit := ⟨none, fun _ => "never", none⟩

/-- A tool fixture holding a non-empty provenance list. -/
def sourcedTool : ToolM Unit :=
  ⟨some "search_course_content", fun _ => "ok",
   some [⟨"Advanced Retrieval for AI with Chroma - Lesson 1", some "https://example.com/lesson1"⟩]⟩

/-- A tool fixture without a `last_sources` attribute. -/
def outlineToolM : ToolM Unit := ⟨some "get_course_outline", fun _ => "outline", none⟩

/-- The formatted blocks produced by the loop are exactly the per-pair
header-plus-document strings, in order. -/
theorem formatEntriesAux_fst (link : String → Int → Option String)
    (l : List (String × ChunkMeta)) :
    (formatEntriesAux link l).1 = l.map (fun p =>
      ("[" ++ p.2.course_title.getD "unknown" ++
        (match p.2.lesson_number with
          | some n => " - Lesson " ++ toString n
          | none => "") ++ "]") ++ "\n" ++ p.1) := by
  induction l with
  | nil => rfl
  | cons p rest ih =>
    cases p with
    | mk doc meta => simp [formatEntriesAux, ih]

/-- The provenance records produced by the loop are exactly one record
per pair, in order, with the label and the looked-up lesson URL. -/
theorem formatEntriesAux_sources (link : String → Int → Option String)
    (l : List (String × ChunkMeta)) :
    (formatEntriesAux link l).2.1 = l.map (fun p =>
      (⟨p.2.course_title.getD "unknown" ++
        (match p.2.lesson_number with
          | some n => " - Lesson " ++ toString n
          | none => ""),
        match p.2.lesson_number with
          | some n => link (p.2.course_title.getD "unknown") n
          | none => none⟩ : Source)) := by
  induction l with
  | nil => rfl
  | cons p rest ih =>
    cases p with
    | mk doc meta => simp [formatEntriesAux, ih]

/-- The lesson-link lookups performed by the loop are exactly the
(course title, lesson number) pairs of the entries that carry a lesson
number, in order. -/
theorem formatEntriesAux_calls (link : String → Int → Option String)
    (l : List (String × ChunkMeta)) :
    (formatEntriesAux link l).2.2 = l.filterMap (fun p =>
      p.2.lesson_number.map (fun n => (p.2.course_title.getD "unknown", n))) := by
  induction l with
  | nil => rfl
  | cons p rest ih =>
    cases p with
    | mk doc meta =>
      cases h : meta.lesson_number with
      | none => simp [formatEntriesAux, List.filterMap_cons, h, ih]
      | some n => simp [formatEntriesAux, List.filterMap_cons, h, ih]

/-- On a non-error result, `CourseSearchTool.execute` returns the value
of `_format_results` when the result is non-empty. -/
theorem execute_formats (store : VectorStore) (last : List Source) (q : String)
    (cn : Option String) (ln : Option Int)
    (hne : (store.search q cn ln).error = none)
    (hdoc : (store.search q cn ln).documents ≠ []) :
    CourseSearchTool.execute store last q cn ln =
      CourseSearchTool.format_results store (store.search q cn ln) := by
  have hre : pyTruthyStr (store.search q cn ln).error = false := by
    rw [hne]; rfl
  have hemp : (store.search q cn ln).is_empty = false := by
    simp [SearchResults.is_empty, List.isEmpty_iff, hdoc]
  simp [CourseSearchTool.execute, hre, hemp]

/-- C1: for every `SearchResults` with error unset and a non-empty
documents list, `CourseSearchTool.execute` returns, for each
(document, metadata) pair in order, a header `[course_title]` extended
with ` - Lesson n` exactly when the metadata carries a lesson number,
followed by a newline and the document text, consecutive entries joined
by a blank line. -/
theorem search_output_blocks (store : VectorStore) (last : List Source) (q : String)
    (cn : Option String) (ln : Option Int)
    (hne : (store.search q cn ln).error = none)
    (hdoc : (store.search q cn ln).documents ≠ []) :
    (CourseSearchTool.execute store last q cn ln).1 =
      String.intercalate "\n\n"
        (((store.search q cn ln).documents.zip (store.search q cn ln).metadata).map
          (fun p =>
            ("[" ++ p.2.course_title.getD "unknown" ++
              (match p.2.lesson_number with
                | some n => " - Lesson " ++ toString n
                | none => "") ++ "]") ++ "\n" ++ p.1)) := by
  rw [execute_formats store last q cn ln hne hdoc]
  simp only [CourseSearchTool.format_results]
  rw [formatEntriesAux_fst]

/-- Witness for C1: the sample store (two hits, the second without a
lesson number) produces exactly the two expected blocks. -/
theorem search_output_blocks_witness :
    (CourseSearchTool.execute sampleStore [] "What are vector databases?" none none).1 =
      "[Advanced Retrieval for AI with Chroma - Lesson 1]\nVector databases store embeddings\n\n[Advanced Retrieval for AI with Chroma]\nChromaDB is a popular vector database" := by
  have h := search_output_blocks sampleStore [] "What are vector databases?" none none
    rfl (by decide)
  exact h.trans (by decide)

/-- C2: on a non-error, non-empty result, one invocation of
`CourseSearchTool.execute` stores exactly one provenance record per
(document, metadata) pair, in order, replacing any prior `last_sources`
value (the new value does not depend on `last`): the text is the course
title extended with ` - Lesson n` when a lesson number is present, the
url is `get_lesson_link course_title n` when a lesson number is present
and unset otherwise; and `get_lesson_link` is consulted exactly on the
entries that carry a lesson number, so never for an entry without one. -/
theorem search_provenance_records (store : VectorStore) (last : List Source) (q : String)
    (cn : Option String) (ln : Option Int)
    (hne : (store.search q cn ln).error = none)
    (hdoc : (store.search q cn ln).documents ≠ []) :
    (CourseSearchTool.execute store last q cn ln).2.1 =
      (((store.search q cn ln).documents.zip (store.search q cn ln).metadata).map
        (fun p =>
          (⟨p.2.course_title.getD "unknown" ++
            (match p.2.lesson_number with
              | some n => " - Lesson " ++ toString n
              | none => ""),
            match p.2.lesson_number with
              | some n => store.get_lesson_link (p.2.course_title.getD "unknown") n
              | none => none⟩ : Source)))
    ∧ (CourseSearchTool.execute store last q cn ln).2.2 =
      (((store.search q cn ln).documents.zip (store.search q cn ln).metadata).filterMap
        (fun p => p.2.lesson_number.map
          (fun n => (p.2.course_title.getD "unknown", n)))) := by
  rw [execute_formats store last q cn ln hne hdoc]
  simp only [CourseSearchTool.format_results]
  exact ⟨formatEntriesAux_sources _ _, formatEntriesAux_calls _ _⟩

/-- Witness for C2: on the sample store the invocation stores exactly the
two expected provenance records and consults the lesson link exactly once
(for the entry that has a lesson number). -/
theorem search_provenance_records_witness :
    (CourseSearchTool.execute sampleStore [⟨"stale", none⟩] "q" none none).2.1 =
      [⟨"Advanced Retrieval for AI with Chroma - Lesson 1",
        some "https://example.com/lesson1"⟩,
       ⟨"Advanced Retrieval for AI with Chroma", none⟩]
    ∧ (CourseSearchTool.execute sampleStore [⟨"stale", none⟩] "q" none none).2.2 =
      [("Advanced Retrieval for AI with Chroma", 1)] := by
  have h := search_provenance_records sampleStore [⟨"stale", none⟩] "q" none none
    rfl (by decide)
  exact ⟨h.1.trans (by decide), h.2.trans (by decide)⟩

/-- Counterexample to C3: with `course_name` supplied as the empty string
and `lesson_number` supplied as 0 on an empty non-error result, the
claim predicts the message `No relevant content found in course
\x27\x27 in lesson 0`, but the code appends neither filter (both are
Python-falsy) and terminates the message with a period. -/
theorem search_empty_message_counterexample :
    (CourseSearchTool.execute emptyStore [] "q" (some "") (some 0)).1 ≠
      "No relevant content found in course \x27\x27 in lesson 0"
    ∧ (CourseSearchTool.execute emptyStore [] "q" (some "") (some 0)).1 =
      "No relevant content found." :=
  ⟨by decide, by decide⟩

/-- C3 (amended): for every search yielding an empty, non-error result,
`CourseSearchTool.execute` returns `No relevant content found`, with
` in course \x27name\x27` appended iff a truthy (non-empty) course_name
was supplied, ` in lesson n` appended iff a truthy (non-zero)
lesson_number was supplied, and a terminating period. -/
theorem search_empty_message (store : VectorStore) (last : List Source) (q : String)
    (cn : Option String) (ln : Option Int)
    (hne : (store.search q cn ln).error = none)
    (hdoc : (store.search q cn ln).documents = []) :
    (CourseSearchTool.execute store last q cn ln).1 =
      "No relevant content found" ++
        ((if pyTruthyStr cn then " in course \x27" ++ cn.getD "" ++ "\x27" else "") ++
         (if pyTruthyInt ln then " in lesson " ++ toString (ln.getD 0) else "")) ++ "." := by
  have hre : pyTruthyStr (store.search q cn ln).error = false := by
    rw [hne]; rfl
  have hemp : (store.search q cn ln).is_empty = true := by
    simp [SearchResults.is_empty, hdoc]
  simp [CourseSearchTool.execute, hre, hemp]

/-- Witness for the amended C3: both filters supplied and truthy appear
in the message, which ends with a period. -/
theorem search_empty_message_witness :
    (CourseSearchTool.execute emptyStore [] "test" (some "NonExistent") (some 99)).1 =
      "No relevant content found in course \x27NonExistent\x27 in lesson 99." := by
  have h := search_empty_message emptyStore [] "test" (some "NonExistent") (some 99)
    rfl rfl
  exact h.trans (by decide)

/-- C4: for every `SearchResults` whose error field is set (to a truthy,
i.e. non-empty, string — matching the `if results.error:` check),
`CourseSearchTool.execute` returns exactly that error string, with no
wrapping or prefix. -/
theorem search_error_verbatim (store : VectorStore) (last : List Source) (q : String)
    (cn : Option String) (ln : Option Int) (e : String)
    (he : (store.search q cn ln).error = some e) (hne : e ≠ "") :
    (CourseSearchTool.execute store last q cn ln).1 = e := by
  have hte : pyTruthyStr (some e) = true := by
    simp [pyTruthyStr, hne]
  simp [CourseSearchTool.execute, he, hte]

/-- Witness for C4: the error store surfaces its error string verbatim. -/
theorem search_error_verbatim_witness :
    (CourseSearchTool.execute errStore [] "test query" none none).1 =
      "Test search error" :=
  search_error_verbatim errStore [] "test query" none none "Test search error"
    rfl (by decide)

/-- C5: for every course metadata entry selected by a resolved title,
`CourseOutlineTool.execute` renders the Course line (always), a Course
Link line only when the course link is present (truthy), an Instructor
line only when the instructor is present (truthy), then — when the
lesson list is non-empty — a `Course Outline (N lessons):` header with N
the number of lessons followed by one `Lesson number: title` line per
lesson in catalog order with ` - link` appended exactly when that lesson
has a (truthy) link; when the lesson list is empty it renders
`**Course Outline:** No lessons available` and omits the count header. -/
theorem outline_render (store : VectorStore) (course_name t : String) (m : CourseMeta)
    (hres : store.resolve_course_name course_name = some t) (ht : t ≠ "")
    (hfind : store.get_all_courses_metadata.find? (fun mm => mm.title == some t) = some m) :
    CourseOutlineTool.execute store course_name =
      String.intercalate "\n"
        ((["**Course:** " ++ m.title.getD "Unknown Course"] ++
          (if pyTruthyStr m.course_link then
            ["**Course Link:** " ++ m.course_link.getD ""] else []) ++
          (if pyTruthyStr m.instructor then
            ["**Instructor:** " ++ m.instructor.getD ""] else [])) ++
         (if m.lessons = [] then ["\n**Course Outline:** No lessons available"]
          else ("\n**Course Outline (" ++ toString m.lessons.length ++ " lessons):**") ::
            m.lessons.map (fun lesson =>
              if pyTruthyStr lesson.lesson_link then
                "Lesson " ++ (match lesson.lesson_number with
                  | some n => toString n
                  | none => "None") ++ ": " ++ lesson.lesson_title.getD "Untitled Lesson" ++
                  " - " ++ lesson.lesson_link.getD ""
              else
                "Lesson " ++ (match lesson.lesson_number with
                  | some n => toString n
                  | none => "None") ++ ": " ++ lesson.lesson_title.getD "Untitled Lesson"))) := by
  have ht2 : pyTruthyStr (some t) = true := by
    simp [pyTruthyStr, ht]
  simp only [CourseOutlineTool.execute, hres, ht2, Bool.not_true, Option.getD_some, hfind]
  simp only [Bool.false_eq_true, if_false, CourseOutlineTool.format_course_outline]
  cases hL : m.lessons with
  | nil => simp [hL, List.append_assoc]
  | cons a l => simp [hL, List.append_assoc]

set_option maxRecDepth 4000 in
/-- Witness for C5: the sample course renders with all optional lines,
the two-lesson count header, and a link on exactly the first lesson. -/
theorem outline_render_witness :
    CourseOutlineTool.execute outlineStore "Chroma" =
      "**Course:** Advanced Retrieval for AI with Chroma\n**Course Link:** https://example.com/course\n**Instructor:** John Doe\n\n**Course Outline (2 lessons):**\nLesson 1: Introduction to Vectors - https://example.com/lesson1\nLesson 2: Embedding Basics" := by
  have h := outline_render outlineStore "Chroma" "Advanced Retrieval for AI with Chroma"
    sampleCourseMeta rfl (by decide) rfl
  exact h.trans (by decide)

/-- C6: `CourseOutlineTool.execute` returns `No course found matching
\x27course_name\x27` whenever the resolver yields no (truthy) title, and
`Course metadata not found for \x27title\x27` whenever the resolver
yields a title with no matching metadata entry; both are plain strings
of a total function, so no exception escapes. -/
theorem outline_errors (store : VectorStore) (course_name : String) :
    (pyTruthyStr (store.resolve_course_name course_name) = false →
      CourseOutlineTool.execute store course_name =
        "No course found matching \x27" ++ course_name ++ "\x27")
    ∧ (∀ t : String, store.resolve_course_name course_name = some t → t ≠ "" →
        store.get_all_courses_metadata.find? (fun m => m.title == some t) = none →
        CourseOutlineTool.execute store course_name =
          "Course metadata not found for \x27" ++ t ++ "\x27") := by
  constructor
  · intro h
    simp [CourseOutlineTool.execute, h]
  · intro t hres ht hfind
    have ht2 : pyTruthyStr (some t) = true := by
      simp [pyTruthyStr, ht]
    simp [CourseOutlineTool.execute, hres, ht2, hfind]

/-- Witness for C6: the empty catalog yields the no-course message, and a
resolver pointing at a missing metadata entry yields the metadata-not-
found message. -/
theorem outline_errors_witness :
    CourseOutlineTool.execute emptyStore "MCP" = "No course found matching \x27MCP\x27"
    ∧ CourseOutlineTool.execute ghostStore "MCP" =
        "Course metadata not found for \x27Ghost Course\x27" :=
  ⟨(outline_errors emptyStore "MCP").1 rfl,
   (outline_errors ghostStore "MCP").2 "Ghost Course" rfl (by decide) rfl⟩

/-- Dictionary assignment stores the value under the assigned key. -/
theorem lookup_dictSet_self {α : Type} (ts : ToolManager α) (k : String) (v : ToolM α) :
    ToolManager.lookup (ToolManager.dictSet ts k v) k = some v := by
  induction ts with
  | nil => simp [ToolManager.dictSet, ToolManager.lookup]
  | cons p rest ih =>
    by_cases h : p.1 = k
    · simp [ToolManager.dictSet, ToolManager.lookup, h]
    · simp [ToolManager.dictSet, ToolManager.lookup, h, ih]

/-- Dictionary assignment leaves every other key unchanged. -/
theorem lookup_dictSet_other {α : Type} (ts : ToolManager α) (k k2 : String) (v : ToolM α)
    (h : k2 ≠ k) :
    ToolManager.lookup (ToolManager.dictSet ts k v) k2 = ToolManager.lookup ts k2 := by
  induction ts with
  | nil =>
    simp [ToolManager.dictSet, ToolManager.lookup]
    exact Ne.symm h
  | cons p rest ih =>
    by_cases hp : p.1 = k
    · simp [ToolManager.dictSet, ToolManager.lookup, hp, h, Ne.symm h]
    · by_cases hp2 : p.1 = k2
      · simp [ToolManager.dictSet, ToolManager.lookup, hp, hp2, h]
      · simp [ToolManager.dictSet, ToolManager.lookup, hp, hp2, ih]

/-- C7: `ToolManager.register_tool` fails (raising before any mutation,
so the stored mapping is unchanged) for every tool whose definition
carries no truthy name, and for every tool whose definition carries a
(non-empty) name it stores the tool under that name, overwriting any
previously registered tool with the same name and leaving every other
name unchanged. -/
theorem register_tool_spec {α : Type} (ts : ToolManager α) (tool : ToolM α) :
    (pyTruthyStr tool.def_name = false →
      ToolManager.register_tool ts tool =
        (ts, some "Tool must have a \x27name\x27 in its definition"))
    ∧ (∀ s : String, tool.def_name = some s → s ≠ "" →
        (ToolManager.register_tool ts tool).2 = none ∧
        ToolManager.lookup (ToolManager.register_tool ts tool).1 s = some tool ∧
        ∀ k : String, k ≠ s →
          ToolManager.lookup (ToolManager.register_tool ts tool).1 k =
            ToolManager.lookup ts k) := by
  constructor
  · intro h
    simp [ToolManager.register_tool, h]
  · intro s hs hns
    have hts : pyTruthyStr tool.def_name = true := by
      simp [hs, pyTruthyStr, hns]
    have hts2 : pyTruthyStr (some s) = true := by
      simp [pyTruthyStr, hns]
    refine ⟨by simp [ToolManager.register_tool, hts], ?_, ?_⟩
    · simp [ToolManager.register_tool, hts, hts2, hs, lookup_dictSet_self]
    · intro k hk
      simp [ToolManager.register_tool, hts, hts2, hs,
        lookup_dictSet_other ts s k tool hk]

/-- Witness for C7: the nameless tool is rejected with the registry
unchanged; re-registering the shared name overwrites the old tool and
leaves the other registered name untouched. -/
theorem register_tool_spec_witness :
    ToolManager.register_tool ([] : ToolManager Unit) namelessTool =
      ([], some "Tool must have a \x27name\x27 in its definition")
    ∧ (ToolManager.register_tool
        [("search_course_content", namedTool), ("get_course_outline", outlineToolM)]
        namedTool2).2 = none
    ∧ ToolManager.lookup (ToolManager.register_tool
        [("search_course_content", namedTool), ("get_course_outline", outlineToolM)]
        namedTool2).1 "search_course_content" = some namedTool2
    ∧ ToolManager.lookup (ToolManager.register_tool
        [("search_course_content", namedTool), ("get_course_outline", outlineToolM)]
        namedTool2).1 "get_course_outline" =
      ToolManager.lookup
        [("search_course_content", namedTool), ("get_course_outline", outlineToolM)]
        "get_course_outline" := by
  have h2 := (register_tool_spec
    [("search_course_content", namedTool), ("get_course_outline", outlineToolM)]
    namedTool2).2 "search_course_content" rfl (by decide)
  exact ⟨(register_tool_spec ([] : ToolManager Unit) namelessTool).1 rfl,
    h2.1, h2.2.1, h2.2.2 "get_course_outline" (by decide)⟩

/-- C8: for every name not registered, `ToolManager.execute_tool`
returns exactly `Tool \x27name\x27 not found` (a plain string of a total
function, so it does not raise); for every registered name it dispatches
to that tool and returns the raw result of its run unchanged. -/
theorem execute_tool_spec {α : Type} (ts : ToolManager α) (tool_name : String) (args : α) :
    (ToolManager.lookup ts tool_name = none →
      ToolManager.execute_tool ts tool_name args =
        "Tool \x27" ++ tool_name ++ "\x27 not found")
    ∧ ∀ tool : ToolM α, ToolManager.lookup ts tool_name = some tool →
        ToolManager.execute_tool ts tool_name args = tool.run args := by
  constructor
  · intro h
    simp [ToolManager.execute_tool, h]
  · intro tool h
    simp [ToolManager.execute_tool, h]

/-- Witness for C8: an unregistered name yields the not-found message; a
registered name yields the raw tool result. -/
theorem execute_tool_spec_witness :
    ToolManager.execute_tool [("search_course_content", namedTool)] "nonexistent_tool" () =
      "Tool \x27nonexistent_tool\x27 not found"
    ∧ ToolManager.execute_tool [("search_course_content", namedTool)]
        "search_course_content" () = "result A" :=
  ⟨(execute_tool_spec [("search_course_content", namedTool)] "nonexistent_tool" ()).1 rfl,
   ((execute_tool_spec [("search_course_content", namedTool)]
      "search_course_content" ()).2 namedTool rfl).trans rfl⟩

/-- Resetting twice gives the same registry state as resetting once. -/
theorem reset_sources_idem {α : Type} (ts : ToolManager α) :
    ToolManager.reset_sources (ToolManager.reset_sources ts) =
      ToolManager.reset_sources ts := by
  induction ts with
  | nil => rfl
  | cons p rest ih =>
    simp only [ToolManager.reset_sources, List.map_cons] at ih ⊢
    rw [ih]
    cases hls : p.2.last_sources <;> simp [hls]

/-- After a reset, the registry reports no last sources. -/
theorem get_last_sources_reset {α : Type} (ts : ToolManager α) :
    ToolManager.get_last_sources (ToolManager.reset_sources ts) = [] := by
  induction ts with
  | nil => rfl
  | cons p rest ih =>
    cases hls : p.2.last_sources with
    | none =>
      simpa [ToolManager.reset_sources, ToolManager.get_last_sources, hls] using ih
    | some l =>
      simpa [ToolManager.reset_sources, ToolManager.get_last_sources, hls] using ih

/-- After a reset, every registered tool that has the `last_sources`
attribute holds the empty list. -/
theorem reset_sources_clears {α : Type} (ts : ToolManager α) :
    (ToolManager.reset_sources ts).all
      (fun p => p.2.last_sources == none || p.2.last_sources == some []) = true := by
  induction ts with
  | nil => rfl
  | cons p rest ih =>
    cases hls : p.2.last_sources with
    | none => simpa [ToolManager.reset_sources, List.all_cons, hls] using ih
    | some l => simpa [ToolManager.reset_sources, List.all_cons, hls] using ih

/-- C9: `ToolManager.reset_sources` is idempotent, leaves
`get_last_sources` returning the empty list from any state, and clears
the provenance of every registered tool that tracks it (each tool either
lacks the attribute or holds the empty list afterwards). -/
theorem reset_sources_spec {α : Type} (ts : ToolManager α) :
    ToolManager.reset_sources (ToolManager.reset_sources ts) =
      ToolManager.reset_sources ts
    ∧ ToolManager.get_last_sources (ToolManager.reset_sources ts) = []
    ∧ (ToolManager.reset_sources ts).all
        (fun p => p.2.last_sources == none || p.2.last_sources == some []) = true :=
  ⟨reset_sources_idem ts, get_last_sources_reset ts, reset_sources_clears ts⟩

/-- C10: an invocation of `CourseSearchTool.execute` that takes the error
path or the empty-result path returns the prior `last_sources` value
unchanged; and when neither path is taken (non-error, non-empty, with
the parallel-lists invariant), the invocation stores exactly the freshly
formatted source list, which is non-empty — so earlier provenance
survives a failed or empty search and is overwritten only when at least
one result is formatted. -/
theorem search_sources_frame (store : VectorStore) (last : List Source) (q : String)
    (cn : Option String) (ln : Option Int) :
    ((pyTruthyStr (store.search q cn ln).error = true ∨
        (store.search q cn ln).documents = []) →
      (CourseSearchTool.execute store last q cn ln).2.1 = last)
    ∧ ((store.search q cn ln).error = none →
        (store.search q cn ln).documents ≠ [] →
        (store.search q cn ln).documents.length = (store.search q cn ln).metadata.length →
        (CourseSearchTool.execute store last q cn ln).2.1 =
          (CourseSearchTool.format_results store (store.search q cn ln)).2.1 ∧
        (CourseSearchTool.format_results store (store.search q cn ln)).2.1 ≠ []) := by
  constructor
  · intro h
    by_cases he : pyTruthyStr (store.search q cn ln).error = true
    · simp [CourseSearchTool.execute, he]
    · have hd : (store.search q cn ln).documents = [] := by
        rcases h with h1 | h2
        · exact absurd h1 he
        · exact h2
      have hemp : (store.search q cn ln).is_empty = true := by
        simp [SearchResults.is_empty, hd]
      simp [CourseSearchTool.execute, he, hemp]
  · intro hne hdoc hlen
    rw [execute_formats store last q cn ln hne hdoc]
    refine ⟨rfl, ?_⟩
    simp only [CourseSearchTool.format_results]
    rw [formatEntriesAux_sources]
    have hzlen : ((store.search q cn ln).documents.zip
        (store.search q cn ln).metadata).length =
        (store.search q cn ln).documents.length := by
      rw [List.length_zip, ← hlen, Nat.min_self]
    have hznil : (store.search q cn ln).documents.zip
        (store.search q cn ln).metadata ≠ [] := by
      intro hz
      apply hdoc
      rw [← List.length_eq_zero, ← hzlen, hz]
      rfl
    simpa using hznil

/-- Witness for C10: the error store and the empty store leave a prior
source list untouched, while the sample store overwrites it with a
non-empty fresh list. -/
theorem search_sources_frame_witness :
    (CourseSearchTool.execute errStore [⟨"prior", none⟩] "q" none none).2.1 =
      [⟨"prior", none⟩]
    ∧ (CourseSearchTool.execute emptyStore [⟨"prior", none⟩] "q" none none).2.1 =
      [⟨"prior", none⟩]
    ∧ (CourseSearchTool.execute sampleStore [⟨"prior", none⟩] "q" none none).2.1 ≠ [] := by
  have h3 := (search_sources_frame sampleStore [⟨"prior", none⟩] "q" none none).2
    rfl (by decide) (by decide)
  exact ⟨(search_sources_frame errStore [⟨"prior", none⟩] "q" none none).1
      (Or.inl (by decide)),
    (search_sources_frame emptyStore [⟨"prior", none⟩] "q" none none).1 (Or.inr rfl),
    h3.1 ▸ h3.2⟩
